import Mathlib

/-!
Verification of the MessageInput chat-input component
(src/src/components/MessageInput.jsx).

The component is embedded shallowly: React state becomes an explicit
DraftState record, each event handler becomes a pure function from the
state (and the outcome of the one awaited upload call) to the new state
together with a list of observable Effects (callback invocations, alerts,
object-URL creation and revocation, timer arming).  The debounced typing
notifier is modelled by a small timed simulation that delivers a pending
timeout before any later keystroke.
-/

namespace ChatVerse

/-- A picked file as the component sees it: declared byte size and MIME type string. -/
structure JsFile where
  size : Nat
  type : String
  deriving DecidableEq

/-- Inner data field of the upload service response. -/
structure UploadData where
  url : String
  deriving DecidableEq

/-- Upload service response, expected shape { success, data: { url }, message }.
Absent fields are modelled with Option. -/
structure UploadResponse where
  success : Bool
  data : Option UploadData
  message : Option String
  deriving DecidableEq

/-- A JS error as caught in handleSend: the optional nested
response.data.message and the error's own message string. -/
structure UploadError where
  responseDataMessage : Option String
  message : String
  deriving DecidableEq

/-- Result of awaiting uploadService.uploadImage: the promise resolves
with a response object or rejects with an error. -/
inductive UploadOutcome where
  | resolved (resp : UploadResponse)
  | rejected (err : UploadError)
  deriving DecidableEq

/-- The messageData object handed to the onSendMessage callback. -/
structure MessagePayload where
  chatId : String
  receiverId : String
  text : String
  mediaURL : String
  mediaType : String
  deriving DecidableEq

/-- Observable actions of the component, listed in program order. -/
inductive Effect where
  | setUploading (b : Bool)
  | awaitUpload
  | consoleError
  | alert (msg : String)
  | sendMessage (p : MessagePayload)
  | createObjectURL (handle : Nat)
  | revokeObjectURL (handle : Nat)
  | clearTimeout
  | setTimeout (deadline : Nat)
  | emitTyping
  deriving DecidableEq

/-- React state of MessageInput (text, uploading, selectedImage,
selectedFile) together with the value of the hidden file input element.
Preview object-URLs are identified by Nat handles. -/
structure DraftState where
  text : String
  uploading : Bool
  selectedImage : Option Nat
  selectedFile : Option JsFile
  fileInputValue : String
  deriving DecidableEq

/-- JS truthiness-based or-else on strings: the empty string is falsy. -/
def jsOr (a b : String) : String := if a = "" then b else a

/-- Read an optional string the way JS reads a possibly-undefined property
in a falsy test: undefined behaves like the empty string. -/
def optStr (o : Option String) : String := o.getD ""

/-- JS String.prototype.trim, modelled on the character list. -/
def jsTrim (s : String) : String :=
  String.mk (((s.data.dropWhile Char.isWhitespace).reverse.dropWhile Char.isWhitespace).reverse)

/-- Character-list version of String.prototype.startsWith. -/
def charsStartWith : List Char → List Char → Bool
  | _, [] => true
  | [], _ :: _ => false
  | c :: cs, p :: ps => c == p && charsStartWith cs ps

/-- JS String.prototype.startsWith on our string model. -/
def strStartsWith (s pat : String) : Bool := charsStartWith s.data pat.data

/-- Truthiness of the source check
response.success && response.data && response.data.url
(an empty url string is falsy, hence a failure). -/
def uploadWellFormed (r : UploadResponse) : Bool :=
  r.success && (match r.data with | some d => d.url != "" | none => false)

/-- The url adopted from a well-formed response. -/
def responseUrl (r : UploadResponse) : String :=
  match r.data with
  | some d => d.url
  | none => ""

/-- Generic fallback message of handleSend's catch block. -/
def genericUploadMsg : String :=
  "Failed to upload image. Please check your Cloudinary configuration in the server .env file."

/-- The Error thrown for a malformed or unsuccessful response:
new Error(response.message or the literal Upload failed); a fresh Error
has no nested response field. -/
def thrownError (resp : UploadResponse) : UploadError :=
  { responseDataMessage := none, message := jsOr (optStr resp.message) "Upload failed" }

/-- Message selected in the catch block, in order of preference:
error.response?.data?.message, then error.message, then the generic text. -/
def catchErrMsg (err : UploadError) : String :=
  jsOr (optStr err.responseDataMessage) (jsOr err.message genericUploadMsg)

/-- Effect trace of a failed upload attempt: setUploading(true), the await,
console.error and alert in the catch block, setUploading(false) in the
catch block, and setUploading(false) again from the finally block run by
the early return. -/
def uploadFailEffects (errMsg : String) : List Effect :=
  [Effect.setUploading true, Effect.awaitUpload, Effect.consoleError,
   Effect.alert errMsg, Effect.setUploading false, Effect.setUploading false]

/-- Result of the leading upload block of handleSend: either the send is
aborted inside the catch block, or control proceeds past the block with
possibly updated mediaURL and mediaType. -/
inductive UploadPhase where
  | aborted (s : DraftState) (effs : List Effect)
  | proceed (s : DraftState) (effs : List Effect) (mediaURL mediaType : String)
  deriving DecidableEq

/-- The upload block of handleSend.  It runs only when a file is selected
and no mediaURL argument was supplied.  On a well-formed response the url
is adopted and mediaType becomes image; otherwise an Error is thrown and
caught, the chosen message is alerted, and the handler returns early.  The
finally clause clears uploading on every path. -/
def uploadStep (s : DraftState) (outcome : UploadOutcome) (mediaURL mediaType : String) :
    UploadPhase :=
  if s.selectedFile.isSome && (mediaURL == "") then
    match outcome with
    | UploadOutcome.resolved resp =>
      if uploadWellFormed resp then
        UploadPhase.proceed { s with uploading := false }
          [Effect.setUploading true, Effect.awaitUpload, Effect.setUploading false]
          (responseUrl resp) "image"
      else
        UploadPhase.aborted { s with uploading := false }
          (uploadFailEffects (catchErrMsg (thrownError resp)))
    | UploadOutcome.rejected err =>
      UploadPhase.aborted { s with uploading := false }
        (uploadFailEffects (catchErrMsg err))
  else
    UploadPhase.proceed s [] mediaURL mediaType

/-- handleSend.  After the upload block, an empty trimmed text with no
mediaURL is a silent no-op; otherwise the messageData payload is built,
delivered to onSendMessage when that callback is provided, and the draft
state (text, selectedImage, selectedFile, file input value) is cleared. -/
def handleSend (chatId receiverId : String) (hasSendCb : Bool) (s : DraftState)
    (outcome : UploadOutcome) (messageText mediaURL mediaType : String) :
    DraftState × List Effect :=
  match uploadStep s outcome mediaURL mediaType with
  | UploadPhase.aborted s1 effs => (s1, effs)
  | UploadPhase.proceed s1 effs mURL mType =>
    if jsTrim messageText == "" && mURL == "" then (s1, effs)
    else
      ({ s1 with
          text := "", selectedImage := none, selectedFile := none, fileInputValue := "" },
       effs ++ (if hasSendCb then
         [Effect.sendMessage
           { chatId := chatId, receiverId := receiverId, text := jsTrim messageText,
             mediaURL := mURL, mediaType := mType }]
         else []))

/-- handleSubmit: prevents the default and calls handleSend(text), so the
mediaURL and mediaType arguments take their default empty values. -/
def handleSubmit (chatId receiverId : String) (hasSendCb : Bool) (s : DraftState)
    (outcome : UploadOutcome) : DraftState × List Effect :=
  handleSend chatId receiverId hasSendCb s outcome s.text "" ""

/-- Disabled condition of the submit button:
(!text.trim() && !selectedFile) || uploading. -/
def submitDisabled (s : DraftState) : Bool :=
  (jsTrim s.text == "" && s.selectedFile.isNone) || s.uploading

/-- Recogniser for send-callback effects. -/
def isSendEffect : Effect → Bool
  | Effect.sendMessage _ => true
  | _ => false

/-- The browser's registry of live (created, not yet revoked) object URLs.
URL.createObjectURL hands out fresh handles from a counter. -/
structure UrlRegistry where
  live : List Nat
  counter : Nat
  deriving DecidableEq

/-- URL.createObjectURL: a fresh handle becomes live. -/
def createObjectURL (reg : UrlRegistry) : Nat × UrlRegistry :=
  (reg.counter, { live := reg.live ++ [reg.counter], counter := reg.counter + 1 })

/-- URL.revokeObjectURL: the handle stops being live. -/
def revokeObjectURL (reg : UrlRegistry) (h : Nat) : UrlRegistry :=
  { reg with live := reg.live.erase h }

/-- handleImageSelect.  No file picked is a no-op.  A file over
5 * 1024 * 1024 bytes is rejected with the size alert, a non-image MIME
type with the type alert; both rejections also clear the file input value
and touch nothing else.  An accepted file is stored together with a fresh
preview object-URL handle. -/
def handleImageSelect (s : DraftState) (reg : UrlRegistry) (file : Option JsFile) :
    DraftState × UrlRegistry × List Effect :=
  match file with
  | none => (s, reg, [])
  | some f =>
    if f.size > 5 * 1024 * 1024 then
      ({ s with fileInputValue := "" }, reg,
       [Effect.alert "File size must be less than 5MB"])
    else if !(strStartsWith f.type "image/") then
      ({ s with fileInputValue := "" }, reg,
       [Effect.alert "Please select an image file"])
    else
      ({ s with
          selectedFile := some f, selectedImage := some (createObjectURL reg).1 },
       (createObjectURL reg).2,
       [Effect.createObjectURL (createObjectURL reg).1])

/-- One complete file-pick event as React settles it: handleImageSelect
runs, and when selectedImage changed, the cleanup of the useEffect keyed
on selectedImage revokes the previous preview handle. -/
def selectEvent (s : DraftState) (reg : UrlRegistry) (file : Option JsFile) :
    DraftState × UrlRegistry × List Effect :=
  if (handleImageSelect s reg file).1.selectedImage = s.selectedImage then
    handleImageSelect s reg file
  else
    match s.selectedImage with
    | some h =>
      ((handleImageSelect s reg file).1,
       revokeObjectURL (handleImageSelect s reg file).2.1 h,
       (handleImageSelect s reg file).2.2 ++ [Effect.revokeObjectURL h])
    | none => handleImageSelect s reg file

/-- Component unmount: the useEffect cleanup revokes the current preview
handle, when one is held. -/
def unmountCleanup (s : DraftState) (reg : UrlRegistry) : UrlRegistry :=
  match s.selectedImage with
  | some h => revokeObjectURL reg h
  | none => reg

/-- Registry well-formedness: the live object URLs are exactly the current
preview handle, and every live handle predates the allocation counter. -/
def liveMatches (s : DraftState) (reg : UrlRegistry) : Prop :=
  reg.live = s.selectedImage.toList ∧ ∀ h ∈ reg.live, h < reg.counter

/-- handleTextChange: store the new value, invoke onTyping, clear any
recorded timeout, and arm a fresh 1000 ms single-shot timeout that will
invoke onStopTyping.  refVal is the timeout currently recorded in
typingTimeoutRef. -/
def handleTextChange (s : DraftState) (refVal : Option Nat) (now : Nat) (value : String) :
    DraftState × Option Nat × List Effect :=
  ({ s with text := value },
   some (now + 1000),
   [Effect.emitTyping] ++
     (match refVal with | some _ => [Effect.clearTimeout] | none => []) ++
     [Effect.setTimeout (now + 1000)])

/-- State of the timed simulation of the typing notifier: component state,
the armed not-yet-fired timeout deadline, the times at which onStopTyping
fired, and how often onTyping fired. -/
structure TypingSim where
  state : DraftState
  pending : Option Nat
  stops : List Nat
  starts : Nat
  deriving DecidableEq

/-- Deliver one keystroke at time t carrying the new field value.  The
event loop first fires an armed timeout whose deadline has passed, then
runs handleTextChange. -/
def stepKeystroke (sim : TypingSim) (t : Nat) (value : String) : TypingSim :=
  let fired : List Nat :=
    match sim.pending with
    | some d => if d ≤ t then [d] else []
    | none => []
  { state := (handleTextChange sim.state sim.pending t value).1,
    pending := (handleTextChange sim.state sim.pending t value).2.1,
    stops := sim.stops ++ fired,
    starts := sim.starts + 1 }

/-- After the last keystroke the event loop eventually fires the remaining
armed timeout. -/
def flushPending (sim : TypingSim) : TypingSim :=
  match sim.pending with
  | some d => { sim with pending := none, stops := sim.stops ++ [d] }
  | none => sim

/-- Run a whole keystroke sequence (time, value pairs) from an idle
component and let the final timeout fire. -/
def runTyping (s0 : DraftState) (evs : List (Nat × String)) : TypingSim :=
  flushPending
    (evs.foldl (fun sim ev => stepKeystroke sim ev.1 ev.2)
      { state := s0, pending := none, stops := [], starts := 0 })

/-- Each listed keystroke arrives strictly less than 1000 ms after the
previous time bound. -/
def withinDebounce : Nat → List (Nat × String) → Bool
  | _, [] => true
  | prev, ev :: rest => decide (ev.1 < prev + 1000) && withinDebounce ev.1 rest

/-- Time of the last event, or the given bound when there is none. -/
def lastFst (a : Nat) (evs : List (Nat × String)) : Nat :=
  evs.foldl (fun _ e => e.1) a

/-- Value of the last event, or the given default when there is none. -/
def lastSnd (v : String) (evs : List (Nat × String)) : String :=
  evs.foldl (fun _ e => e.2) v

/-- Branch test of the send abort: the response is malformed or
unsuccessful, or the upload promise rejected. -/
def uploadAttemptFails : UploadOutcome → Bool
  | UploadOutcome.resolved resp => !uploadWellFormed resp
  | UploadOutcome.rejected _ => true

/-- The error object reaching the catch block: the thrown Error for a
malformed response, the rejection value otherwise. -/
def caughtError : UploadOutcome → UploadError
  | UploadOutcome.resolved resp => thrownError resp
  | UploadOutcome.rejected err => err

theorem uploadWellFormed_url_ne (r : UploadResponse) (h : uploadWellFormed r = true) :
    responseUrl r ≠ "" := by
  unfold uploadWellFormed at h
  unfold responseUrl
  cases hd : r.data with
  | none => rw [hd] at h; simp at h
  | some d =>
    rw [hd] at h
    simp only [Bool.and_eq_true, bne_iff_ne, ne_eq] at h
    simpa using h.2

theorem uploadStep_no_file (s : DraftState) (outcome : UploadOutcome)
    (mediaURL mediaType : String) (h : s.selectedFile = none) :
    uploadStep s outcome mediaURL mediaType = UploadPhase.proceed s [] mediaURL mediaType := by
  unfold uploadStep
  simp [h]

theorem uploadStep_with_file (s : DraftState) (outcome : UploadOutcome) (f : JsFile)
    (h : s.selectedFile = some f) :
    (∃ msg, uploadStep s outcome "" "" =
      UploadPhase.aborted { s with uploading := false } (uploadFailEffects msg)) ∨
    (∃ url, url ≠ "" ∧ uploadStep s outcome "" "" =
      UploadPhase.proceed { s with uploading := false }
        [Effect.setUploading true, Effect.awaitUpload, Effect.setUploading false]
        url "image") := by
  unfold uploadStep
  rw [h]
  cases outcome with
  | resolved resp =>
    by_cases hw : uploadWellFormed resp = true
    · right
      exact ⟨responseUrl resp, uploadWellFormed_url_ne resp hw, by simp [hw]⟩
    · left
      exact ⟨catchErrMsg (thrownError resp), by simp [hw]⟩
  | rejected err =>
    left
    exact ⟨catchErrMsg err, by simp⟩

theorem uploadStep_aborted_msg (s : DraftState) (outcome : UploadOutcome) (f : JsFile)
    (hfile : s.selectedFile = some f) (hbad : uploadAttemptFails outcome = true) :
    uploadStep s outcome "" "" = UploadPhase.aborted { s with uploading := false }
      (uploadFailEffects (catchErrMsg (caughtError outcome))) := by
  unfold uploadStep
  rw [hfile]
  cases outcome with
  | resolved resp =>
    have hw : ¬ uploadWellFormed resp = true := by
      simp only [uploadAttemptFails, Bool.not_eq_true'] at hbad
      simp [hbad]
    simp [hw, caughtError]
  | rejected err => simp [caughtError]

/-- C10: when the file-picker change event delivers no file, handleImageSelect
is a complete no-op: state, url registry and effects are all untouched. -/
theorem handleImageSelect_no_file_noop (s : DraftState) (reg : UrlRegistry) :
    handleImageSelect s reg none = (s, reg, []) := rfl

/-- C8: whenever uploading is true, the submit button's disabled condition
holds, so no new send can be initiated while an upload is outstanding. -/
theorem submit_disabled_while_uploading (s : DraftState) (h : s.uploading = true) :
    submitDisabled s = true := by
  unfold submitDisabled
  rw [h]
  simp

/-- Sample file A: a small png. -/
def fileA : JsFile :=
  { size := 1000
    type := "image/png" }

/-- Sample file B: a small jpeg. -/
def fileB : JsFile :=
  { size := 2000
    type := "image/jpeg" }

/-- Sample oversized file. -/
def bigFile : JsFile :=
  { size := 6 * 1024 * 1024
    type := "image/png" }

/-- Sample file of non-image type. -/
def pdfFile : JsFile :=
  { size := 1000
    type := "application/pdf" }

/-- Sample idle draft. -/
def emptyDraft : DraftState :=
  { text := ""
    uploading := false
    selectedImage := none
    selectedFile := none
    fileInputValue := "" }

/-- Sample draft holding only whitespace text. -/
def blankDraft : DraftState :=
  { text := "   "
    uploading := false
    selectedImage := none
    selectedFile := none
    fileInputValue := "" }

/-- Sample draft with text mid-upload. -/
def uploadingDraft : DraftState :=
  { text := "hi"
    uploading := true
    selectedImage := none
    selectedFile := none
    fileInputValue := "" }

/-- Sample draft holding text together with file A and its preview handle 0. -/
def draftWithFile : DraftState :=
  { text := "  hi  "
    uploading := false
    selectedImage := some 0
    selectedFile := some fileA
    fileInputValue := "a.png" }

/-- Sample registry in which handle 0 is live and 1 is the next handle. -/
def regAfterA : UrlRegistry :=
  { live := [0]
    counter := 1 }

/-- Sample empty registry. -/
def emptyReg : UrlRegistry :=
  { live := []
    counter := 0 }

/-- Sample well-formed successful upload response. -/
def okResponse : UploadResponse :=
  { success := true
    data := some { url := "http://x/y.png" }
    message := none }

/-- Sample malformed upload response: transport success but no data. -/
def badResponse : UploadResponse :=
  { success := true
    data := none
    message := some "boom" }

/-- Sample upload rejection carrying a nested service message. -/
def rejection : UploadError :=
  { responseDataMessage := some "quota exceeded"
    message := "Request failed" }

theorem submit_disabled_while_uploading_witness :
    uploadingDraft.uploading = true ∧ submitDisabled uploadingDraft = true :=
  ⟨rfl, submit_disabled_while_uploading uploadingDraft rfl⟩

/-- C6: an oversized or non-image file is rejected by handleImageSelect with
the alert specific to the failed check (the size check is made first), and
neither the selected file, nor the preview, nor the url registry change. -/
theorem handleImageSelect_rejects_invalid_file
    (s : DraftState) (reg : UrlRegistry) (f : JsFile)
    (hbad : f.size > 5 * 1024 * 1024 ∨ strStartsWith f.type "image/" = false) :
    (handleImageSelect s reg (some f)).1.selectedFile = s.selectedFile ∧
    (handleImageSelect s reg (some f)).1.selectedImage = s.selectedImage ∧
    (handleImageSelect s reg (some f)).2.1 = reg ∧
    (handleImageSelect s reg (some f)).2.2 =
      [Effect.alert (if f.size > 5 * 1024 * 1024 then "File size must be less than 5MB"
        else "Please select an image file")] := by
  by_cases hs : f.size > 5 * 1024 * 1024
  · simp [handleImageSelect, hs]
  · have htype : strStartsWith f.type "image/" = false := hbad.resolve_left hs
    simp [handleImageSelect, hs, htype]

theorem handleImageSelect_rejects_invalid_file_witness :
    (bigFile.size > 5 * 1024 * 1024 ∨ strStartsWith bigFile.type "image/" = false) ∧
    (handleImageSelect emptyDraft emptyReg (some bigFile)).1.selectedFile =
      emptyDraft.selectedFile ∧
    (handleImageSelect emptyDraft emptyReg (some bigFile)).1.selectedImage =
      emptyDraft.selectedImage ∧
    (handleImageSelect emptyDraft emptyReg (some bigFile)).2.1 = emptyReg ∧
    (handleImageSelect emptyDraft emptyReg (some bigFile)).2.2 =
      [Effect.alert (if bigFile.size > 5 * 1024 * 1024 then "File size must be less than 5MB"
        else "Please select an image file")] :=
  ⟨Or.inl (by decide),
    handleImageSelect_rejects_invalid_file emptyDraft emptyReg bigFile (Or.inl (by decide))⟩

theorem uploadStep_proceed_no_send (s : DraftState) (outcome : UploadOutcome)
    (s1 : DraftState) (effs : List Effect) (mURL mType : String)
    (h : uploadStep s outcome "" "" = UploadPhase.proceed s1 effs mURL mType) :
    List.countP isSendEffect effs = 0 := by
  cases hf : s.selectedFile with
  | none =>
    rw [uploadStep_no_file s outcome "" "" hf] at h
    injection h with h1 h2 h3 h4
    rw [← h2]
    rfl
  | some f =>
    rcases uploadStep_with_file s outcome f hf with ⟨msg, habort⟩ | ⟨url, hne, hproc⟩
    · rw [habort] at h
      exact absurd h (by simp)
    · rw [hproc] at h
      injection h with h1 h2 h3 h4
      rw [← h2]
      rfl

theorem uploadStep_proceed_empty_url (s : DraftState) (outcome : UploadOutcome)
    (s1 : DraftState) (effs : List Effect) (mType : String)
    (h : uploadStep s outcome "" "" = UploadPhase.proceed s1 effs "" mType) :
    s1 = s ∧ effs = [] := by
  cases hf : s.selectedFile with
  | none =>
    rw [uploadStep_no_file s outcome "" "" hf] at h
    injection h with h1 h2 h3 h4
    exact ⟨h1.symm, h2.symm⟩
  | some f =>
    rcases uploadStep_with_file s outcome f hf with ⟨msg, habort⟩ | ⟨url, hne, hproc⟩
    · rw [habort] at h
      exact absurd h (by simp)
    · rw [hproc] at h
      injection h with h1 h2 h3 h4
      exact absurd h3 hne

theorem handleSubmit_aborted_eq (chatId receiverId : String) (cb : Bool) (s : DraftState)
    (outcome : UploadOutcome) (s1 : DraftState) (effs : List Effect)
    (hstep : uploadStep s outcome "" "" = UploadPhase.aborted s1 effs) :
    handleSubmit chatId receiverId cb s outcome = (s1, effs) := by
  unfold handleSubmit handleSend
  rw [hstep]

theorem handleSubmit_noop_eq (chatId receiverId : String) (cb : Bool) (s : DraftState)
    (outcome : UploadOutcome) (s1 : DraftState) (effs : List Effect) (mURL mType : String)
    (hstep : uploadStep s outcome "" "" = UploadPhase.proceed s1 effs mURL mType)
    (hcond : (jsTrim s.text == "" && mURL == "") = true) :
    handleSubmit chatId receiverId cb s outcome = (s1, effs) := by
  unfold handleSubmit handleSend
  rw [hstep]
  simp only [hcond, if_true]

theorem handleSubmit_proceed_eq (chatId receiverId : String) (cb : Bool) (s : DraftState)
    (outcome : UploadOutcome) (s1 : DraftState) (effs : List Effect) (mURL mType : String)
    (hstep : uploadStep s outcome "" "" = UploadPhase.proceed s1 effs mURL mType)
    (hcond : (jsTrim s.text == "" && mURL == "") = false) :
    handleSubmit chatId receiverId cb s outcome =
      ({ s1 with
          text := "", selectedImage := none, selectedFile := none, fileInputValue := "" },
       effs ++ (if cb then [Effect.sendMessage
         { chatId := chatId, receiverId := receiverId, text := jsTrim s.text,
           mediaURL := mURL, mediaType := mType }] else [])) := by
  unfold handleSubmit handleSend
  rw [hstep]
  simp only [hcond, Bool.false_eq_true, if_false]

/-- C1: when the draft still carries non-empty trimmed text or a media url
after the upload block proceeds, handleSubmit delivers exactly one
sendMessage effect with the payload built from chatId, receiverId, the
trimmed text, the media url and the media type, and afterwards clears the
text, the selected file, the preview and the file input value. -/
theorem handleSend_delivers_and_clears
    (chatId receiverId : String) (s : DraftState) (outcome : UploadOutcome)
    (s1 : DraftState) (effs : List Effect) (mURL mType : String)
    (hstep : uploadStep s outcome "" "" = UploadPhase.proceed s1 effs mURL mType)
    (hnonempty : jsTrim s.text ≠ "" ∨ mURL ≠ "") :
    handleSubmit chatId receiverId true s outcome =
      ({ s1 with
          text := "", selectedImage := none, selectedFile := none, fileInputValue := "" },
       effs ++ [Effect.sendMessage
         { chatId := chatId, receiverId := receiverId, text := jsTrim s.text,
           mediaURL := mURL, mediaType := mType }]) ∧
    List.countP isSendEffect (handleSubmit chatId receiverId true s outcome).2 = 1 := by
  have hcount := uploadStep_proceed_no_send s outcome s1 effs mURL mType hstep
  have hcond : (jsTrim s.text == "" && mURL == "") = false := by
    rcases hnonempty with hx | hx <;> simp [hx]
  have heq := handleSubmit_proceed_eq chatId receiverId true s outcome s1 effs mURL mType
    hstep hcond
  rw [if_pos rfl] at heq
  refine ⟨heq, ?_⟩
  rw [heq]
  simp [List.countP_append, hcount, isSendEffect]

/-- C2: when, after the upload block proceeds, the trimmed text is empty and
no media url is present, handleSubmit is a silent no-op: the state is
unchanged and no effect at all (in particular no sendMessage) is emitted. -/
theorem handleSend_empty_draft_noop
    (chatId receiverId : String) (cb : Bool) (s : DraftState) (outcome : UploadOutcome)
    (s1 : DraftState) (effs : List Effect) (mType : String)
    (hstep : uploadStep s outcome "" "" = UploadPhase.proceed s1 effs "" mType)
    (htext : jsTrim s.text = "") :
    handleSubmit chatId receiverId cb s outcome = (s, []) := by
  obtain ⟨hs1, heffs⟩ := uploadStep_proceed_empty_url s outcome s1 effs mType hstep
  rw [handleSubmit_noop_eq chatId receiverId cb s outcome s1 effs "" mType hstep
    (by simp [htext]), hs1, heffs]

/-- C3: with a file selected and a failing upload attempt (malformed or
unsuccessful response, or a rejection), handleSubmit aborts: the alert with
the message preferred by the catch block is emitted, no sendMessage effect
is emitted, and the whole draft state except the uploading flag is left
unchanged so the user may retry. -/
theorem handleSend_upload_failure_preserves_draft
    (chatId receiverId : String) (cb : Bool) (s : DraftState) (outcome : UploadOutcome)
    (f : JsFile) (hfile : s.selectedFile = some f)
    (hbad : uploadAttemptFails outcome = true) :
    handleSubmit chatId receiverId cb s outcome =
      ({ s with uploading := false },
       uploadFailEffects (catchErrMsg (caughtError outcome))) ∧
    List.countP isSendEffect (handleSubmit chatId receiverId cb s outcome).2 = 0 ∧
    Effect.alert (catchErrMsg (caughtError outcome)) ∈
      (handleSubmit chatId receiverId cb s outcome).2 := by
  have habort := uploadStep_aborted_msg s outcome f hfile hbad
  have heq := handleSubmit_aborted_eq chatId receiverId cb s outcome _ _ habort
  rw [heq]
  refine ⟨rfl, ?_, ?_⟩
  · simp [uploadFailEffects, isSendEffect]
  · simp [uploadFailEffects]

/-- C4: whenever a file is selected, the effect trace of handleSubmit opens
with setUploading(true) immediately followed by the awaited upload, every
later setUploading effect sets the flag to false, at least one such effect
occurs on every outcome, and the final state has uploading cleared. -/
theorem handleSend_uploading_flag_lifecycle
    (chatId receiverId : String) (cb : Bool) (s : DraftState) (outcome : UploadOutcome)
    (f : JsFile) (hfile : s.selectedFile = some f) :
    (∃ rest, (handleSubmit chatId receiverId cb s outcome).2 =
        Effect.setUploading true :: Effect.awaitUpload :: rest ∧
      Effect.setUploading false ∈ rest ∧
      ∀ b, Effect.setUploading b ∈ rest → b = false) ∧
    (handleSubmit chatId receiverId cb s outcome).1.uploading = false := by
  rcases uploadStep_with_file s outcome f hfile with ⟨msg, habort⟩ | ⟨url, hne, hproc⟩
  · have heq := handleSubmit_aborted_eq chatId receiverId cb s outcome _ _ habort
    rw [heq]
    refine ⟨⟨[Effect.consoleError, Effect.alert msg, Effect.setUploading false,
      Effect.setUploading false], ?_, ?_, ?_⟩, ?_⟩
    · rfl
    · simp
    · intro b hb
      simp at hb
      exact hb
    · rfl
  · have heq := handleSubmit_proceed_eq chatId receiverId cb s outcome _ _ url "image" hproc
      (by simp [hne])
    rw [heq]
    refine ⟨⟨Effect.setUploading false ::
      (if cb then [Effect.sendMessage
        { chatId := chatId, receiverId := receiverId, text := jsTrim s.text,
          mediaURL := url, mediaType := "image" }] else []), ?_, ?_, ?_⟩, ?_⟩
    · rfl
    · simp
    · intro b hb
      cases cb <;> simp at hb <;> exact hb
    · rfl

/-- C9: every payload carried by a sendMessage effect of handleSubmit has a
non-empty media url exactly when its media type is the image marker, and
its text field is the trimmed draft text. -/
theorem sendMessage_payload_invariant
    (chatId receiverId : String) (cb : Bool) (s : DraftState) (outcome : UploadOutcome)
    (p : MessagePayload)
    (hmem : Effect.sendMessage p ∈ (handleSubmit chatId receiverId cb s outcome).2) :
    (p.mediaURL ≠ "" ↔ p.mediaType = "image") ∧ p.text = jsTrim s.text := by
  cases hf : s.selectedFile with
  | none =>
    have hstep := uploadStep_no_file s outcome "" "" hf
    by_cases ht : jsTrim s.text = ""
    · rw [handleSubmit_noop_eq chatId receiverId cb s outcome s [] "" "" hstep
        (by simp [ht])] at hmem
      simp at hmem
    · rw [handleSubmit_proceed_eq chatId receiverId cb s outcome s [] "" "" hstep
        (by simp [ht])] at hmem
      cases cb with
      | false => simp at hmem
      | true =>
        simp at hmem
        subst hmem
        simp
  | some f =>
    rcases uploadStep_with_file s outcome f hf with ⟨msg, habort⟩ | ⟨url, hne, hproc⟩
    · rw [handleSubmit_aborted_eq chatId receiverId cb s outcome _ _ habort] at hmem
      simp [uploadFailEffects] at hmem
    · rw [handleSubmit_proceed_eq chatId receiverId cb s outcome _ _ url "image" hproc
        (by simp [hne])] at hmem
      cases cb with
      | false => simp at hmem
      | true =>
        simp at hmem
        subst hmem
        simp [hne]

theorem handleImageSelect_accepts (s : DraftState) (reg : UrlRegistry) (f : JsFile)
    (hsize : ¬ f.size > 5 * 1024 * 1024) (htype : strStartsWith f.type "image/" = true) :
    handleImageSelect s reg (some f) =
      ({ s with selectedFile := some f, selectedImage := some reg.counter },
       { live := reg.live ++ [reg.counter], counter := reg.counter + 1 },
       [Effect.createObjectURL reg.counter]) := by
  unfold handleImageSelect createObjectURL
  simp [hsize, htype]

/-- Draft state after file A was accepted: the pair of fileA and preview
handle 0 is held. -/
def draftAfterA : DraftState :=
  { text := ""
    uploading := false
    selectedImage := some 0
    selectedFile := some fileA
    fileInputValue := "" }

/-- C7 counterexample: replacing file A (preview handle 0) by file B emits
createObjectURL of the new handle strictly before revokeObjectURL of the
prior one: the source creates and commits the new object URL inside
handleImageSelect and only the subsequent effect cleanup revokes the prior
handle, so the prior handle is not released before the new one is
retained. -/
theorem handleImageSelect_release_order_counterexample :
    (selectEvent draftAfterA regAfterA (some fileB)).2.2 =
      [Effect.createObjectURL 1, Effect.revokeObjectURL 0] ∧
    ¬ List.indexOf (Effect.revokeObjectURL 0)
        (selectEvent draftAfterA regAfterA (some fileB)).2.2 <
      List.indexOf (Effect.createObjectURL 1)
        (selectEvent draftAfterA regAfterA (some fileB)).2.2 := by
  constructor
  · decide
  · decide

/-- C7 (amended): accepting a new file while a prior file/preview pair is
held replaces the pair: the new file and a fresh preview handle become the
only held pair, and the prior handle is released during the same selection
event but only after the new one is created and retained — the event's
effect trace is createObjectURL of the new handle followed by
revokeObjectURL of the prior one — leaving the prior handle no longer
live; after the unmount cleanup no preview handle stays live at all. -/
theorem handleImageSelect_replaces_and_releases
    (s : DraftState) (reg : UrlRegistry) (fA fB : JsFile) (hA : Nat)
    (hwf : liveMatches s reg)
    (_hfileA : s.selectedFile = some fA) (himgA : s.selectedImage = some hA)
    (hsize : fB.size ≤ 5 * 1024 * 1024) (htype : strStartsWith fB.type "image/" = true) :
    (selectEvent s reg (some fB)).1.selectedFile = some fB ∧
    (selectEvent s reg (some fB)).1.selectedImage = some reg.counter ∧
    (selectEvent s reg (some fB)).2.2 =
      [Effect.createObjectURL reg.counter, Effect.revokeObjectURL hA] ∧
    (selectEvent s reg (some fB)).2.1.live = [reg.counter] ∧
    hA ∉ (selectEvent s reg (some fB)).2.1.live ∧
    (unmountCleanup (selectEvent s reg (some fB)).1 (selectEvent s reg (some fB)).2.1).live =
      [] := by
  have hsz : ¬ fB.size > 5 * 1024 * 1024 := by omega
  have hsel := handleImageSelect_accepts s reg fB hsz htype
  have hlive : reg.live = [hA] := by
    rw [hwf.1, himgA]
    rfl
  have hlt : hA < reg.counter := hwf.2 hA (by rw [hlive]; exact List.mem_singleton.mpr rfl)
  have heq : selectEvent s reg (some fB) =
      ({ s with selectedFile := some fB, selectedImage := some reg.counter },
       { live := [reg.counter], counter := reg.counter + 1 },
       [Effect.createObjectURL reg.counter, Effect.revokeObjectURL hA]) := by
    unfold selectEvent
    rw [hsel, himgA]
    rw [if_neg (by simp; omega)]
    simp only [revokeObjectURL]
    rw [hlive]
    simp [List.erase_cons_head]
  rw [heq]
  refine ⟨rfl, rfl, rfl, rfl, ?_, ?_⟩
  · simp only [List.mem_singleton]
    omega
  · simp [unmountCleanup, revokeObjectURL, List.erase_cons_head]

theorem handleImageSelect_replaces_and_releases_witness :
    liveMatches draftAfterA regAfterA ∧
    fileB.size ≤ 5 * 1024 * 1024 ∧ strStartsWith fileB.type "image/" = true ∧
    (selectEvent draftAfterA regAfterA (some fileB)).1.selectedFile = some fileB ∧
    (selectEvent draftAfterA regAfterA (some fileB)).2.2 =
      [Effect.createObjectURL regAfterA.counter, Effect.revokeObjectURL 0] ∧
    (selectEvent draftAfterA regAfterA (some fileB)).2.1.live = [regAfterA.counter] ∧
    (0 : Nat) ∉ (selectEvent draftAfterA regAfterA (some fileB)).2.1.live ∧
    (unmountCleanup (selectEvent draftAfterA regAfterA (some fileB)).1
      (selectEvent draftAfterA regAfterA (some fileB)).2.1).live = [] := by
  have h := handleImageSelect_replaces_and_releases draftAfterA regAfterA fileA fileB 0
    (by constructor <;> decide) rfl rfl (by decide) (by decide)
  exact ⟨by constructor <;> decide, by decide, by decide,
    h.1, h.2.2.1, h.2.2.2.1, h.2.2.2.2.1, h.2.2.2.2.2⟩

theorem foldl_step_within (evs : List (Nat × String)) :
    ∀ (sim : TypingSim) (tp : Nat), sim.pending = some (tp + 1000) →
      withinDebounce tp evs = true →
      ((evs.foldl (fun sim ev => stepKeystroke sim ev.1 ev.2) sim).pending =
          some (lastFst tp evs + 1000) ∧
        (evs.foldl (fun sim ev => stepKeystroke sim ev.1 ev.2) sim).stops = sim.stops ∧
        (evs.foldl (fun sim ev => stepKeystroke sim ev.1 ev.2) sim).starts =
          sim.starts + evs.length ∧
        (evs.foldl (fun sim ev => stepKeystroke sim ev.1 ev.2) sim).state.text =
          lastSnd sim.state.text evs) := by
  induction evs with
  | nil =>
    intro sim tp hp _
    exact ⟨by simpa [lastFst] using hp, rfl, rfl, rfl⟩
  | cons ev rest ih =>
    intro sim tp hp hw
    simp only [withinDebounce, Bool.and_eq_true, decide_eq_true_eq] at hw
    obtain ⟨hlt, hw2⟩ := hw
    have hstep : stepKeystroke sim ev.1 ev.2 =
        { state := { sim.state with text := ev.2 }, pending := some (ev.1 + 1000),
          stops := sim.stops, starts := sim.starts + 1 } := by
      unfold stepKeystroke handleTextChange
      rw [hp]
      have hnf : ¬ (tp + 1000 ≤ ev.1) := by omega
      simp [hnf]
    rw [List.foldl_cons, hstep]
    obtain ⟨h1, h2, h3, h4⟩ := ih
      { state := { sim.state with text := ev.2 }, pending := some (ev.1 + 1000),
        stops := sim.stops, starts := sim.starts + 1 } ev.1 rfl hw2
    refine ⟨?_, ?_, ?_, ?_⟩
    · exact h1
    · exact h2
    · rw [h3]
      simp only [List.length_cons]
      omega
    · exact h4

/-- C5: for a keystroke sequence in which every keystroke arrives strictly
within 1000 ms of the previous one, the typing run updates the draft text to
the last typed value, invokes the typing-started callback once per keystroke
with no de-duplication, and the typing-stopped callback fires exactly once,
1000 ms after the last keystroke. -/
theorem handleTextChange_debounce_single_stop
    (s0 : DraftState) (t0 : Nat) (v0 : String) (rest : List (Nat × String))
    (hw : withinDebounce t0 rest = true) :
    (runTyping s0 ((t0, v0) :: rest)).stops = [lastFst t0 rest + 1000] ∧
    (runTyping s0 ((t0, v0) :: rest)).starts = rest.length + 1 ∧
    (runTyping s0 ((t0, v0) :: rest)).state.text = lastSnd v0 rest := by
  have h0 : stepKeystroke { state := s0, pending := none, stops := [], starts := 0 } t0 v0 =
      { state := { s0 with text := v0 }, pending := some (t0 + 1000),
        stops := [], starts := 1 } := by
    unfold stepKeystroke handleTextChange
    simp
  obtain ⟨h1, h2, h3, h4⟩ := foldl_step_within rest
    { state := { s0 with text := v0 }, pending := some (t0 + 1000), stops := [], starts := 1 }
    t0 rfl hw
  unfold runTyping
  rw [List.foldl_cons, h0]
  unfold flushPending
  rw [h1]
  simp only []
  refine ⟨?_, ?_, ?_⟩
  · rw [h2]
    rfl
  · rw [h3]
    show 1 + rest.length = rest.length + 1
    omega
  · exact h4

theorem handleTextChange_debounce_single_stop_witness :
    withinDebounce 0 [(500, "ab"), (999, "abc")] = true ∧
    (runTyping emptyDraft [(0, "a"), (500, "ab"), (999, "abc")]).stops =
      [lastFst 0 [(500, "ab"), (999, "abc")] + 1000] ∧
    (runTyping emptyDraft [(0, "a"), (500, "ab"), (999, "abc")]).starts =
      [(500, "ab"), (999, "abc")].length + 1 ∧
    (runTyping emptyDraft [(0, "a"), (500, "ab"), (999, "abc")]).state.text =
      lastSnd "a" [(500, "ab"), (999, "abc")] :=
  ⟨by decide,
    handleTextChange_debounce_single_stop emptyDraft 0 "a" [(500, "ab"), (999, "abc")]
      (by decide)⟩

/-- Sample payload of a successful send of draftWithFile. -/
def okPayload : MessagePayload :=
  { chatId := "chat1"
    receiverId := "user2"
    text := "hi"
    mediaURL := "http://x/y.png"
    mediaType := "image" }

theorem handleSend_delivers_and_clears_witness :
    uploadStep draftWithFile (UploadOutcome.resolved okResponse) "" "" =
      UploadPhase.proceed draftWithFile
        [Effect.setUploading true, Effect.awaitUpload, Effect.setUploading false]
        "http://x/y.png" "image" ∧
    (jsTrim draftWithFile.text ≠ "" ∨ ("http://x/y.png" : String) ≠ "") ∧
    (handleSubmit "chat1" "user2" true draftWithFile (UploadOutcome.resolved okResponse) =
      ({ draftWithFile with
          text := "", selectedImage := none, selectedFile := none, fileInputValue := "" },
       [Effect.setUploading true, Effect.awaitUpload, Effect.setUploading false] ++
         [Effect.sendMessage
           { chatId := "chat1", receiverId := "user2", text := jsTrim draftWithFile.text,
             mediaURL := "http://x/y.png", mediaType := "image" }]) ∧
     List.countP isSendEffect
       (handleSubmit "chat1" "user2" true draftWithFile
         (UploadOutcome.resolved okResponse)).2 = 1) :=
  ⟨by decide, Or.inr (by decide),
    handleSend_delivers_and_clears "chat1" "user2" draftWithFile
      (UploadOutcome.resolved okResponse) draftWithFile
      [Effect.setUploading true, Effect.awaitUpload, Effect.setUploading false]
      "http://x/y.png" "image" (by decide) (Or.inr (by decide))⟩

theorem handleSend_empty_draft_noop_witness :
    uploadStep blankDraft (UploadOutcome.resolved okResponse) "" "" =
      UploadPhase.proceed blankDraft [] "" "" ∧
    jsTrim blankDraft.text = "" ∧
    handleSubmit "chat1" "user2" true blankDraft (UploadOutcome.resolved okResponse) =
      (blankDraft, []) :=
  ⟨by decide, by decide,
    handleSend_empty_draft_noop "chat1" "user2" true blankDraft
      (UploadOutcome.resolved okResponse) blankDraft [] "" (by decide) (by decide)⟩

theorem handleSend_upload_failure_preserves_draft_witness :
    draftWithFile.selectedFile = some fileA ∧
    uploadAttemptFails (UploadOutcome.rejected rejection) = true ∧
    (handleSubmit "chat1" "user2" true draftWithFile (UploadOutcome.rejected rejection) =
      ({ draftWithFile with uploading := false },
       uploadFailEffects (catchErrMsg (caughtError (UploadOutcome.rejected rejection)))) ∧
     List.countP isSendEffect
       (handleSubmit "chat1" "user2" true draftWithFile
         (UploadOutcome.rejected rejection)).2 = 0 ∧
     Effect.alert (catchErrMsg (caughtError (UploadOutcome.rejected rejection))) ∈
       (handleSubmit "chat1" "user2" true draftWithFile
         (UploadOutcome.rejected rejection)).2) :=
  ⟨rfl, rfl,
    handleSend_upload_failure_preserves_draft "chat1" "user2" true draftWithFile
      (UploadOutcome.rejected rejection) fileA rfl rfl⟩

theorem handleSend_uploading_flag_lifecycle_witness :
    draftWithFile.selectedFile = some fileA ∧
    ((∃ rest, (handleSubmit "chat1" "user2" true draftWithFile
          (UploadOutcome.resolved okResponse)).2 =
        Effect.setUploading true :: Effect.awaitUpload :: rest ∧
      Effect.setUploading false ∈ rest ∧
      ∀ b, Effect.setUploading b ∈ rest → b = false) ∧
     (handleSubmit "chat1" "user2" true draftWithFile
        (UploadOutcome.resolved okResponse)).1.uploading = false) :=
  ⟨rfl,
    handleSend_uploading_flag_lifecycle "chat1" "user2" true draftWithFile
      (UploadOutcome.resolved okResponse) fileA rfl⟩

theorem sendMessage_payload_invariant_witness :
    Effect.sendMessage okPayload ∈
      (handleSubmit "chat1" "user2" true draftWithFile
        (UploadOutcome.resolved okResponse)).2 ∧
    ((okPayload.mediaURL ≠ "" ↔ okPayload.mediaType = "image") ∧
      okPayload.text = jsTrim draftWithFile.text) :=
  ⟨by decide,
    sendMessage_payload_invariant "chat1" "user2" true draftWithFile
      (UploadOutcome.resolved okResponse) okPayload (by decide)⟩

end ChatVerse
